import Mathlib

/-!
Verification of the QuantExt mid-point CDS engine, the YoY inflation curve
observer and the SIMM v2.3.8 group lookup.

Dates are modelled as serial day numbers (Int); C++ doubles are modelled as
exact rationals (ℚ), so floating-point rounding is not modelled; fallible
code returns Option or Except.
-/

namespace Engine

/-- Protection side of a credit default swap (QuantLib Protection::Side). -/
inductive ProtectionSide
  | Buyer
  | Seller
deriving DecidableEq

/-- Timing policy for the protection payment
(CreditDefaultSwap::ProtectionPaymentTime). -/
inductive ProtectionPaymentTime
  | atDefault
  | atPeriodEnd
  | atMaturity
deriving DecidableEq

/-- A fixed-rate coupon of the premium leg.  The accrued amount is a function
of the (default) date, as in QuantLib Coupon::accruedAmount. -/
structure Coupon where
  paymentDate : Int
  accrualStartDate : Int
  accrualEndDate : Int
  amount : ℚ
  nominal : ℚ
  accruedAmount : Int → ℚ

/-- A leg entry: either a coupon or a simple cashflow.  The engine requires
every non-occurred entry to be a coupon (the dynamic_pointer_cast plus
QL_REQUIRE at the top of the loop). -/
inductive LegCashFlow
  | coupon (c : Coupon)
  | simple (date : Int) (amount : ℚ)

/-- Payment date of a leg entry. -/
def LegCashFlow.date : LegCashFlow → Int
  | .coupon c => c.paymentDate
  | .simple d _ => d

/-- A simple cashflow (upfront payment, accrual rebate). -/
structure SimpleCashFlow where
  date : Int
  amount : ℚ
deriving DecidableEq

/-- The CreditDefaultSwap::arguments fields read by
MidPointCdsEngineBase::calculate.  The claim object is modelled as the
function (defaultDate, notional, recoveryRate) ↦ amount; for the standard
FaceValueClaim this is notional * (1 - recoveryRate). -/
structure CdsArguments where
  side : ProtectionSide
  notional : ℚ
  spread : ℚ
  upfront : Option ℚ
  protectionStart : Int
  maturity : Int
  settlesAccrual : Bool
  protectionPaymentTime : ProtectionPaymentTime
  leg : List LegCashFlow
  upfrontPayment : Option SimpleCashFlow
  accrualRebate : Option SimpleCashFlow
  accrualRebateCurrent : Option SimpleCashFlow
  claim : Int → ℚ → ℚ → ℚ

/-- The market environment of the engine: evaluation date, the discount
curve (reference date and discount factors) and the default probability
curve together with the engine's recovery rate, plus the resolved value of
the includeSettlementDateFlows flag. -/
structure Market where
  today : Int
  settlementDate : Int
  includeSettlementDateFlows : Bool
  discount : Int → ℚ
  survivalProbability : Int → ℚ
  defaultProbability : Int → Int → ℚ
  recoveryRate : ℚ

/-- QuantLib CashFlow::hasOccurred(refDate, includeRefDate): a cashflow
strictly before the reference date has occurred; on the reference date it
has occurred exactly when the flag excludes reference-date flows. -/
def CashFlow.hasOccurred (cfDate refDate : Int) (includeRefDate : Bool) : Bool :=
  if includeRefDate then decide (cfDate < refDate) else decide (cfDate ≤ refDate)

/-- MidPointCdsEngine::expectedLoss: claim amount at the default date times
the default probability over [d1, d2]. -/
def expectedLoss (mkt : Market) (args : CdsArguments) (defaultDate d1 d2 : Int)
    (notional : ℚ) : ℚ :=
  args.claim defaultDate notional mkt.recoveryRate * mkt.defaultProbability d1 d2

/-- Accrual start date of coupon i: for the first leg entry it is replaced by
the protection start date. -/
def couponStartDate (args : CdsArguments) (i : Nat) (c : Coupon) : Int :=
  if i = 0 then args.protectionStart else c.accrualStartDate

/-- Effective start date: today, when today lies in the accrual period,
otherwise the (possibly replaced) start date. -/
def couponEffectiveStartDate (mkt : Market) (args : CdsArguments) (i : Nat) (c : Coupon) : Int :=
  let s := couponStartDate args i c
  if s ≤ mkt.today ∧ mkt.today ≤ c.accrualEndDate then mkt.today else s

/-- The mid-point default date: effectiveStartDate + (endDate - effectiveStartDate)/2,
with C++ integer division (truncation toward zero). -/
def couponDefaultDate (mkt : Market) (args : CdsArguments) (i : Nat) (c : Coupon) : Int :=
  let e := couponEffectiveStartDate mkt args i c
  e + Int.tdiv (c.accrualEndDate - e) 2

/-- Protection payment date according to the protectionPaymentTime policy. -/
def couponProtectionPaymentDate (mkt : Market) (args : CdsArguments) (i : Nat) (c : Coupon) : Int :=
  match args.protectionPaymentTime with
  | .atDefault => couponDefaultDate mkt args i c
  | .atPeriodEnd => c.paymentDate
  | .atMaturity => args.maturity

/-- The expected loss recorded for coupon i (the expectLoss local in the loop). -/
def couponExpectedLoss (mkt : Market) (args : CdsArguments) (i : Nat) (c : Coupon) : ℚ :=
  expectedLoss mkt args (couponDefaultDate mkt args i c)
    (couponEffectiveStartDate mkt args i c) c.accrualEndDate c.nominal

/-- The default-leg contribution of coupon i: expected loss times the discount
factor at the protection payment date. -/
def defaultLegTerm (mkt : Market) (args : CdsArguments) (i : Nat) (c : Coupon) : ℚ :=
  couponExpectedLoss mkt args i c * mkt.discount (couponProtectionPaymentDate mkt args i c)

/-- The coupon-leg contribution of coupon i: survival-weighted coupon amount,
plus (when accrual settles) the expected accrued amount on default. -/
def couponLegTerm (mkt : Market) (args : CdsArguments) (i : Nat) (c : Coupon) : ℚ :=
  mkt.survivalProbability c.paymentDate * c.amount * mkt.discount c.paymentDate +
    (if args.settlesAccrual then
      mkt.defaultProbability (couponEffectiveStartDate mkt args i c) c.accrualEndDate *
        c.accruedAmount (couponDefaultDate mkt args i c) *
        mkt.discount (couponProtectionPaymentDate mkt args i c)
    else 0)

/-- Accumulator of the leg loop: both leg NPVs (as positive quantities, the
sign is applied afterwards) and the four per-cashflow diagnostic vectors. -/
structure LoopAcc where
  couponLegNPV : ℚ
  defaultLegNPV : ℚ
  protectionPaymentDates : List Int
  midpointDiscounts : List ℚ
  expectedLosses : List ℚ
  defaultProbabilities : List ℚ
deriving DecidableEq

/-- Initial (zero) accumulator. -/
def LoopAcc.init : LoopAcc := ⟨0, 0, [], [], [], []⟩

/-- One iteration of the loop body for a non-occurred coupon. -/
def legStep (mkt : Market) (args : CdsArguments) (i : Nat) (acc : LoopAcc) (c : Coupon) : LoopAcc :=
  { couponLegNPV := acc.couponLegNPV + couponLegTerm mkt args i c
    defaultLegNPV := acc.defaultLegNPV + defaultLegTerm mkt args i c
    protectionPaymentDates :=
      acc.protectionPaymentDates ++ [couponProtectionPaymentDate mkt args i c]
    midpointDiscounts :=
      acc.midpointDiscounts ++ [mkt.discount (couponProtectionPaymentDate mkt args i c)]
    expectedLosses := acc.expectedLosses ++ [couponExpectedLoss mkt args i c]
    defaultProbabilities :=
      acc.defaultProbabilities ++
        [mkt.defaultProbability (couponEffectiveStartDate mkt args i c) c.accrualEndDate] }

/-- The loop over arguments.leg.  Occurred cashflows are skipped (the index
still advances); a non-occurred entry that is not a coupon triggers the
QL_REQUIRE failure, modelled as none. -/
def legLoop (mkt : Market) (args : CdsArguments) : Nat → LoopAcc → List LegCashFlow → Option LoopAcc
  | _, acc, [] => some acc
  | i, acc, cf :: rest =>
    if CashFlow.hasOccurred cf.date mkt.settlementDate mkt.includeSettlementDateFlows then
      legLoop mkt args (i + 1) acc rest
    else
      match cf with
      | .simple _ _ => none
      | .coupon c => legLoop mkt args (i + 1) (legStep mkt args i acc c) rest

/-- Sum of the default-leg contributions of the non-occurred coupons of a leg
starting at index i. -/
def defaultLegSum (mkt : Market) (args : CdsArguments) : Nat → List LegCashFlow → ℚ
  | _, [] => 0
  | i, cf :: rest =>
    (if CashFlow.hasOccurred cf.date mkt.settlementDate mkt.includeSettlementDateFlows then 0
     else
       match cf with
       | .simple _ _ => 0
       | .coupon c => defaultLegTerm mkt args i c) +
      defaultLegSum mkt args (i + 1) rest

/-- One basis point. -/
def basisPoint : ℚ := 1 / 10000

/-- The CreditDefaultSwap::results fields written by the engine, including the
named additionalResults entries that are scalars. -/
structure CdsResults where
  defaultLegNPV : ℚ
  couponLegNPV : ℚ
  upfrontNPV : ℚ
  accrualRebateNPV : ℚ
  accrualRebateNPVCurrent : ℚ
  value : ℚ
  fairSpreadDirty : Option ℚ
  fairSpreadClean : Option ℚ
  fairUpfront : Option ℚ
  couponLegBPS : Option ℚ
  upfrontBPS : Option ℚ
  protectionPaymentDates : List Int
  midpointDiscounts : List ℚ
  expectedLosses : List ℚ
  defaultProbabilities : List ℚ
  upfrontPremium : ℚ
  premiumLegNPVDirty : ℚ
  premiumLegNPVClean : ℚ
deriving DecidableEq

/-- The tail of MidPointCdsEngineBase::calculate after the sign flip: the six
signed quantities are the already-signed defaultLegNPV, couponLegNPV,
upfrontNPV, accrualRebateNPV, accrualRebateNPVCurrent and the upfront sign.
The final unguarded dereference of arguments.upfrontPayment (the
upfrontPremium additional result) is modelled as the trailing match: a null
pointer there makes the whole call fail. -/
def finishCalculate (args : CdsArguments) (acc : LoopAcc) (upfPVO1 : ℚ)
    (defaultLegNPV couponLegNPV upfrontNPV accrualRebateNPV accrualRebateNPVCurrent
      upfrontSign : ℚ) : Option CdsResults :=
  let value := defaultLegNPV + couponLegNPV + upfrontNPV + accrualRebateNPV
  let fairSpreadDirty :=
    if couponLegNPV = 0 then none
    else some (-defaultLegNPV * args.spread / (couponLegNPV + accrualRebateNPV))
  let fairSpreadClean :=
    if couponLegNPV = 0 then none
    else some (-defaultLegNPV * args.spread / (couponLegNPV + accrualRebateNPVCurrent))
  let upfrontSensitivity := upfPVO1 * args.notional
  let fairUpfront :=
    if 0 < upfrontSensitivity then
      some (-upfrontSign * (defaultLegNPV + couponLegNPV + accrualRebateNPV) / upfrontSensitivity)
    else none
  let couponLegBPS :=
    if args.spread = 0 then none else some (couponLegNPV * basisPoint / args.spread)
  let upfrontBPS :=
    match args.upfront with
    | some u => if u = 0 then none else some (upfrontNPV * basisPoint / u)
    | none => none
  match args.upfrontPayment with
  | none => none
  | some p =>
    some
      { defaultLegNPV := defaultLegNPV
        couponLegNPV := couponLegNPV
        upfrontNPV := upfrontNPV
        accrualRebateNPV := accrualRebateNPV
        accrualRebateNPVCurrent := accrualRebateNPVCurrent
        value := value
        fairSpreadDirty := fairSpreadDirty
        fairSpreadClean := fairSpreadClean
        fairUpfront := fairUpfront
        couponLegBPS := couponLegBPS
        upfrontBPS := upfrontBPS
        protectionPaymentDates := acc.protectionPaymentDates
        midpointDiscounts := acc.midpointDiscounts
        expectedLosses := acc.expectedLosses
        defaultProbabilities := acc.defaultProbabilities
        upfrontPremium := p.amount
        premiumLegNPVDirty := couponLegNPV
        premiumLegNPVClean := couponLegNPV + accrualRebateNPVCurrent }

/-- The upfront block (lines 77-84): upfPVO1 (the discount at the upfront
payment date when it is present and has not occurred) and the raw upfront
NPV, before any sign flip. -/
def upfrontRaw (mkt : Market) (args : CdsArguments) : ℚ × ℚ :=
  match args.upfrontPayment with
  | some p =>
    if CashFlow.hasOccurred p.date mkt.settlementDate mkt.includeSettlementDateFlows then (0, 0)
    else (mkt.discount p.date, mkt.discount p.date * p.amount)
  | none => (0, 0)

/-- The raw NPV of an optional accrual-rebate cashflow (lines 86-97): zero
when absent or already occurred, otherwise discounted amount. -/
def accrualRebateRaw (mkt : Market) (cf : Option SimpleCashFlow) : ℚ :=
  match cf with
  | some p =>
    if CashFlow.hasOccurred p.date mkt.settlementDate mkt.includeSettlementDateFlows then 0
    else mkt.discount p.date * p.amount
  | none => 0

/-- MidPointCdsEngineBase::calculate: upfront and accrual-rebate NPVs, the leg
loop, the sign flip (Seller negates the default leg and both accrual rebates;
Buyer negates the coupon leg and the upfront), then the derived outputs. -/
def MidPointCdsEngineBase.calculate (mkt : Market) (args : CdsArguments) : Option CdsResults :=
  match legLoop mkt args 0 LoopAcc.init args.leg with
  | none => none
  | some acc =>
    match args.side with
    | ProtectionSide.Seller =>
      finishCalculate args acc (upfrontRaw mkt args).1 (-acc.defaultLegNPV) acc.couponLegNPV
        (upfrontRaw mkt args).2 (-(accrualRebateRaw mkt args.accrualRebate))
        (-(accrualRebateRaw mkt args.accrualRebateCurrent)) 1
    | ProtectionSide.Buyer =>
      finishCalculate args acc (upfrontRaw mkt args).1 acc.defaultLegNPV (-acc.couponLegNPV)
        (-(upfrontRaw mkt args).2) (accrualRebateRaw mkt args.accrualRebate)
        (accrualRebateRaw mkt args.accrualRebateCurrent) (-1)

/-! The YoYInflationCurveObserver: state, constructor and the LazyObject
recalculation protocol.  The external observable machinery (quote handles,
observer registration) is modelled by an environment function giving the
current value of quote i, and by a notification counter incremented by
update(); QuantLib close(x, y) on exact rationals is equality. -/

/-- Constructor failure: either the out-of-bounds read of rates[0] in the
base-class initializer list when the quote vector is empty (undefined
behaviour in C++, a crash, not a QuantLib validation error), or one of the
QL_REQUIRE validation failures, in source order. -/
inductive CtorError
  | oobQuoteAccess
  | tooFewDates
  | countMismatch
  | datesNotSorted
  | nonPositiveData
  | sameTime
deriving DecidableEq

/-- State of a YoYInflationCurveObserver: node dates and times, the data
array, the (times, data) snapshot backing the interpolation object, the
LazyObject calculated flag, and a counter of notifications sent to
observers. -/
structure ObsCurve where
  baseRate : ℚ
  dates : List Int
  times : List ℚ
  data : List ℚ
  interpTimes : List ℚ
  interpData : List ℚ
  calculated : Bool
  notifications : Nat
deriving DecidableEq

/-- The per-index constructor loop (lines 146-158): for i ≥ 1 require
dates[i] > dates[i-1], require data[i] > -1 (data is zero-initialized, so
this always holds), compute times[i] and require it differs from
times[i-1].  Returns the times of the tail on success. -/
def buildTimes (tfr : Int → ℚ) : Int → ℚ → List Int → Except CtorError (List ℚ)
  | _, _, [] => .ok []
  | dPrev, tPrev, d :: ds =>
    if d ≤ dPrev then .error .datesNotSorted
    else if ((0 : ℚ) ≤ -1) then .error .nonPositiveData
    else
      let t := tfr d
      if t = tPrev then .error .sameTime
      else
        match buildTimes tfr d t ds with
        | .ok ts => .ok (t :: ts)
        | .error e => .error e

/-- The snapped date set: when the index is not interpolated every date is
pulled back to the start of its enclosing inflation period. -/
def snappedDates (indexIsInterpolated : Bool) (periodStart : Int → Int)
    (dates : List Int) : List Int :=
  if indexIsInterpolated then dates else dates.map periodStart

/-- The YoYInflationCurveObserver constructor.  periodStart models
inflationPeriod(d, frequency).first and tfr models timeFromReference under
the curve's day counter.  The base-class initializer list reads rates[0]
before any QL_REQUIRE runs; with an empty quote vector this is an
out-of-bounds access, modelled as the distinguished failure oobQuoteAccess.
Then, in source order: the too-few-dates check, the period snapping, the
quotes/dates count check, the zero-initialisation of data, and the
per-index loop building times; finally the interpolation is set up over
(times, data) and the curve starts not calculated. -/
def YoYInflationCurveObserver.mk (indexIsInterpolated : Bool) (periodStart : Int → Int)
    (tfr : Int → ℚ) (dates : List Int) (quotes : List ℚ) : Except CtorError ObsCurve :=
  match quotes with
  | [] => .error .oobQuoteAccess
  | q0 :: _ =>
    if dates.length ≤ 1 then .error .tooFewDates
    else
      let dates2 := snappedDates indexIsInterpolated periodStart dates
      if quotes.length ≠ dates2.length then .error .countMismatch
      else
        match dates2 with
        | [] => .error .tooFewDates
        | d0 :: drest =>
          let t0 := tfr d0
          match buildTimes tfr d0 t0 drest with
          | .error e => .error e
          | .ok trest =>
            let times := t0 :: trest
            let data : List ℚ := List.replicate (d0 :: drest).length 0
            .ok
              { baseRate := q0
                dates := d0 :: drest
                times := times
                data := data
                interpTimes := times
                interpData := data
                calculated := false
                notifications := 0 }

/-- The data array written by performCalculations: the current value of every
subscribed quote, in node order. -/
def newData (quoteVal : Nat → ℚ) (s : ObsCurve) : List ℚ :=
  (List.range s.dates.length).map quoteVal

/-- performCalculations: copy the current quote values into data_ and rebuild
the interpolation over the full node set (times_, data_). -/
def ObsCurve.performCalculations (quoteVal : Nat → ℚ) (s : ObsCurve) : ObsCurve :=
  { s with
    data := newData quoteVal s
    interpTimes := s.times
    interpData := newData quoteVal s }

/-- update(): LazyObject::update plus YoYInflationTermStructure::update, i.e.
mark the curve dirty and notify the observers of the curve; it does not
recompute anything. -/
def ObsCurve.update (s : ObsCurve) : ObsCurve :=
  { s with calculated := false, notifications := s.notifications + 1 }

/-- LazyObject::calculate: if not yet calculated, set the flag and run
performCalculations; the Bool records whether a recomputation happened. -/
def ObsCurve.lazyCalculate (quoteVal : Nat → ℚ) (s : ObsCurve) : ObsCurve × Bool :=
  if s.calculated then (s, false)
  else ({ s.performCalculations quoteVal with calculated := true }, true)

/-- Linear interpolation over a node snapshot, extrapolating from the first
and last segments beyond the range (the Interpolator template argument is
external to the repository; Linear is its canonical instantiation). -/
def interpValue : List ℚ → List ℚ → ℚ → ℚ
  | [t1, t2], [y1, y2], x => y1 + (x - t1) * (y2 - y1) / (t2 - t1)
  | t1 :: t2 :: ts, y1 :: y2 :: ys, x =>
    if x ≤ t2 then y1 + (x - t1) * (y2 - y1) / (t2 - t1)
    else interpValue (t2 :: ts) (y2 :: ys) x
  | _, _, _ => 0

/-- yoyRateImpl(t): calculate, then evaluate the interpolation. -/
def ObsCurve.yoyRateImpl (quoteVal : Nat → ℚ) (s : ObsCurve) (t : ℚ) : ObsCurve × ℚ :=
  let p := ObsCurve.lazyCalculate quoteVal s
  (p.1, interpValue p.1.interpTimes p.1.interpData t)

/-- data(): calculate, then return data_. -/
def ObsCurve.dataRead (quoteVal : Nat → ℚ) (s : ObsCurve) : ObsCurve × List ℚ :=
  let p := ObsCurve.lazyCalculate quoteVal s
  (p.1, p.1.data)

/-- rates(): calculate, then return data_. -/
def ObsCurve.ratesRead (quoteVal : Nat → ℚ) (s : ObsCurve) : ObsCurve × List ℚ :=
  let p := ObsCurve.lazyCalculate quoteVal s
  (p.1, p.1.data)

/-- nodes(): calculate, then return the (date, rate) pairs. -/
def ObsCurve.nodesRead (quoteVal : Nat → ℚ) (s : ObsCurve) : ObsCurve × List (Int × ℚ) :=
  let p := ObsCurve.lazyCalculate quoteVal s
  (p.1, p.1.dates.zip p.1.data)

/-- Modelled from the spec: the implementation of
SimmConfiguration_ISDA_V2_3_8::group is not under src (the header
src/unnamed/part_001 only declares it).  Per the spec it is the reverse
lookup of the group index a qualifier belongs to among a partition of
qualifiers into disjoint sets; a qualifier found in no group, or in more
than one (a configuration-consistency violation), is a fatal configuration
error, modelled as none.  Groups are modelled as (index, qualifier set)
pairs. -/
def SimmConfiguration.group (qualifier : String)
    (groups : List (Nat × List String)) : Option Nat :=
  match groups.filter (fun g => decide (qualifier ∈ g.2)) with
  | [g] => some g.1
  | _ => none

/-! Concrete fixtures used for witnesses and counterexamples. -/

/-- A trivial market: unit discounts and survival, zero default probability. -/
def mkt0 : Market :=
  { today := 0, settlementDate := 0, includeSettlementDateFlows := false,
    discount := fun _ => 1, survivalProbability := fun _ => 1,
    defaultProbability := fun _ _ => 0, recoveryRate := 0 }

/-- A CDS argument set with an empty leg, nonzero spread and upfront. -/
def args0 : CdsArguments :=
  { side := ProtectionSide.Buyer, notional := 0, spread := 2, upfront := some 3,
    protectionStart := 0, maturity := 10, settlesAccrual := false,
    protectionPaymentTime := ProtectionPaymentTime.atPeriodEnd, leg := [],
    upfrontPayment := some ⟨1, 7⟩, accrualRebate := none, accrualRebateCurrent := none,
    claim := fun _ _ _ => 0 }

/-- The engine output on (mkt0, args0) with side Buyer. -/
def res0B : CdsResults :=
  { defaultLegNPV := 0, couponLegNPV := 0, upfrontNPV := -7, accrualRebateNPV := 0,
    accrualRebateNPVCurrent := 0, value := -7, fairSpreadDirty := none,
    fairSpreadClean := none, fairUpfront := none, couponLegBPS := some 0,
    upfrontBPS := some (-7 / 30000), protectionPaymentDates := [],
    midpointDiscounts := [], expectedLosses := [], defaultProbabilities := [],
    upfrontPremium := 7, premiumLegNPVDirty := 0, premiumLegNPVClean := 0 }

/-- The engine output on (mkt0, args0) with side Seller. -/
def res0S : CdsResults :=
  { defaultLegNPV := 0, couponLegNPV := 0, upfrontNPV := 7, accrualRebateNPV := 0,
    accrualRebateNPVCurrent := 0, value := 7, fairSpreadDirty := none,
    fairSpreadClean := none, fairUpfront := none, couponLegBPS := some 0,
    upfrontBPS := some (7 / 30000), protectionPaymentDates := [],
    midpointDiscounts := [], expectedLosses := [], defaultProbabilities := [],
    upfrontPremium := 7, premiumLegNPVDirty := 0, premiumLegNPVClean := 0 }

/-- The market of the spec example: survival 0.98 at the payment date, default
probability 0.02 over the period, discount 0.995 at the protection payment
date (the mid-point, day 45) and 0.99 elsewhere, recovery 0.4. -/
def c1mkt : Market :=
  { today := 0, settlementDate := 0, includeSettlementDateFlows := false,
    discount := fun d => if d = 45 then 199 / 200 else 99 / 100,
    survivalProbability := fun _ => 49 / 50,
    defaultProbability := fun _ _ => 1 / 50, recoveryRate := 2 / 5 }

/-- The single remaining coupon of the spec example: amount 2500 on notional
1,000,000. -/
def c1coupon : Coupon :=
  { paymentDate := 100, accrualStartDate := 0, accrualEndDate := 90,
    amount := 2500, nominal := 1000000, accruedAmount := fun _ => 0 }

/-- The argument set of the spec example, with a standard face-value claim
notional * (1 - recoveryRate). -/
def c1args : CdsArguments :=
  { side := ProtectionSide.Buyer, notional := 1000000, spread := 1 / 100, upfront := none,
    protectionStart := 0, maturity := 100, settlesAccrual := false,
    protectionPaymentTime := ProtectionPaymentTime.atDefault,
    leg := [LegCashFlow.coupon c1coupon],
    upfrontPayment := some ⟨1, 0⟩, accrualRebate := none, accrualRebateCurrent := none,
    claim := fun _ n r => n * (1 - r) }

/-- The raw leg accumulator of the spec example: default leg 11,940 and coupon
leg 0.98 * 2500 * 0.99. -/
def c1acc : LoopAcc :=
  { couponLegNPV := 4851 / 2, defaultLegNPV := 11940, protectionPaymentDates := [45],
    midpointDiscounts := [199 / 200], expectedLosses := [12000],
    defaultProbabilities := [1 / 50] }

/-- A coupon of amount 100 used by the fair-spread-guard counterexample. -/
def c4coupon : Coupon :=
  { paymentDate := 10, accrualStartDate := 0, accrualEndDate := 8,
    amount := 100, nominal := 0, accruedAmount := fun _ => 0 }

/-- Protection-seller arguments whose accrual rebate exactly offsets the
coupon leg, so the dirty fair-spread denominator is zero while couponLegNPV
is 100. -/
def c4args : CdsArguments :=
  { side := ProtectionSide.Seller, notional := 0, spread := 1, upfront := none,
    protectionStart := 0, maturity := 10, settlesAccrual := false,
    protectionPaymentTime := ProtectionPaymentTime.atPeriodEnd,
    leg := [LegCashFlow.coupon c4coupon],
    upfrontPayment := some ⟨1, 0⟩, accrualRebate := some ⟨1, 100⟩,
    accrualRebateCurrent := none, claim := fun _ _ _ => 0 }

/-- The engine output on (mkt0, c4args). -/
def c4res : CdsResults :=
  { defaultLegNPV := 0, couponLegNPV := 100, upfrontNPV := 0, accrualRebateNPV := -100,
    accrualRebateNPVCurrent := 0, value := 0, fairSpreadDirty := some 0,
    fairSpreadClean := some 0, fairUpfront := none, couponLegBPS := some (1 / 100),
    upfrontBPS := none, protectionPaymentDates := [10], midpointDiscounts := [1],
    expectedLosses := [0], defaultProbabilities := [0],
    upfrontPremium := 0, premiumLegNPVDirty := 100, premiumLegNPVClean := 100 }

/-- A concrete period-snapping map (monotone). -/
def c7snap : Int → Int := fun d => d - 1

/-- A concrete day-count time map. -/
def c7tfr : Int → ℚ := fun d => (d : ℚ)

/-- The curve built by the constructor from dates [0, 10] (snapped to
[-1, 9]) and quotes [4, 5]. -/
def c7curve : ObsCurve :=
  { baseRate := 4, dates := [-1, 9], times := [-1, 9], data := [0, 0],
    interpTimes := [-1, 9], interpData := [0, 0], calculated := false,
    notifications := 0 }

/-- The curve built by the constructor from dates [0, 1] and quotes [5, 7]
with the identity snapping map. -/
def c5curve : ObsCurve :=
  { baseRate := 5, dates := [0, 1], times := [0, 1], data := [0, 0],
    interpTimes := [0, 1], interpData := [0, 0], calculated := false,
    notifications := 0 }

/-- A concrete currency-group partition (FX volatility groups). -/
def c8groups : List (Nat × List String) := [(0, ["USD", "EUR"]), (1, ["TRY"])]

/-- A qualifier contained in group 0 of c8groups. -/
def c8usd : String := "USD"

/-- A qualifier contained in no group of c8groups. -/
def c8jpy : String := "JPY"

/-! Helper lemmas. -/

theorem finishCalculate_none (args : CdsArguments) (acc : LoopAcc) (v d c u ar arc sgn : ℚ)
    (h : args.upfrontPayment = none) :
    finishCalculate args acc v d c u ar arc sgn = none := by
  simp [finishCalculate, h]

theorem finishCalculate_fields (args : CdsArguments) (acc : LoopAcc)
    (v d c u ar arc sgn : ℚ) (p : SimpleCashFlow) (r : CdsResults)
    (hp : args.upfrontPayment = some p)
    (h : finishCalculate args acc v d c u ar arc sgn = some r) :
    r.defaultLegNPV = d ∧ r.couponLegNPV = c ∧ r.upfrontNPV = u ∧
    r.accrualRebateNPV = ar ∧ r.accrualRebateNPVCurrent = arc ∧
    r.value = d + c + u + ar ∧
    r.fairSpreadDirty = (if c = 0 then none else some (-d * args.spread / (c + ar))) ∧
    r.fairSpreadClean = (if c = 0 then none else some (-d * args.spread / (c + arc))) ∧
    r.fairUpfront = (if 0 < v * args.notional then
      some (-sgn * (d + c + ar) / (v * args.notional)) else none) ∧
    r.couponLegBPS = (if args.spread = 0 then none else some (c * basisPoint / args.spread)) ∧
    r.upfrontBPS = (match args.upfront with
      | some uf => if uf = 0 then none else some (u * basisPoint / uf)
      | none => none) ∧
    r.upfrontPremium = p.amount := by
  rw [finishCalculate, hp] at h
  simp only [Option.some.injEq] at h
  subst h
  exact ⟨rfl, rfl, rfl, rfl, rfl, rfl, rfl, rfl, rfl, rfl, rfl, rfl⟩

theorem finishCalculate_value_map (args : CdsArguments) (acc : LoopAcc)
    (v d c u ar arc sgn : ℚ) :
    Option.map CdsResults.value (finishCalculate args acc v d c u ar arc sgn) =
      Option.map (fun _ => d + c + u + ar) args.upfrontPayment := by
  cases hp : args.upfrontPayment with
  | none => rw [finishCalculate, hp]; rfl
  | some p => rw [finishCalculate, hp]; rfl

theorem legLoop_set_side (mkt : Market) (args : CdsArguments) (x : ProtectionSide) :
    ∀ (leg : List LegCashFlow) (i : Nat) (acc : LoopAcc),
    legLoop mkt { args with side := x } i acc leg = legLoop mkt args i acc leg := by
  intro leg
  induction leg with
  | nil => intro i acc; rfl
  | cons cf rest ih =>
    intro i acc
    simp only [legLoop]
    cases CashFlow.hasOccurred cf.date mkt.settlementDate mkt.includeSettlementDateFlows with
    | true => exact ih _ _
    | false =>
      cases cf with
      | simple d a => rfl
      | coupon c => exact ih _ _

theorem legLoop_set_arc (mkt : Market) (args : CdsArguments) (x : Option SimpleCashFlow) :
    ∀ (leg : List LegCashFlow) (i : Nat) (acc : LoopAcc),
    legLoop mkt { args with accrualRebateCurrent := x } i acc leg = legLoop mkt args i acc leg := by
  intro leg
  induction leg with
  | nil => intro i acc; rfl
  | cons cf rest ih =>
    intro i acc
    simp only [legLoop]
    cases CashFlow.hasOccurred cf.date mkt.settlementDate mkt.includeSettlementDateFlows with
    | true => exact ih _ _
    | false =>
      cases cf with
      | simple d a => rfl
      | coupon c => exact ih _ _

theorem legLoop_defaultLeg (mkt : Market) (args : CdsArguments) :
    ∀ (leg : List LegCashFlow) (i : Nat) (acc0 acc : LoopAcc),
    legLoop mkt args i acc0 leg = some acc →
    acc.defaultLegNPV = acc0.defaultLegNPV + defaultLegSum mkt args i leg := by
  intro leg
  induction leg with
  | nil =>
    intro i acc0 acc h
    simp only [legLoop, Option.some.injEq] at h
    subst h
    simp [defaultLegSum]
  | cons cf rest ih =>
    intro i acc0 acc h
    simp only [legLoop] at h
    simp only [defaultLegSum]
    cases hocc : CashFlow.hasOccurred cf.date mkt.settlementDate mkt.includeSettlementDateFlows with
    | true =>
      simp only [hocc, if_true] at h ⊢
      rw [ih _ _ _ h]
      ring
    | false =>
      simp only [hocc, Bool.false_eq_true, if_false] at h ⊢
      cases cf with
      | simple d a => exact absurd h (by simp)
      | coupon c =>
        rw [ih _ _ _ h]
        simp only [legStep]
        ring

/-! Claim theorems. -/

/-- C1: for every non-occurred coupon the engine adds
expectedLoss(defaultDate, effectiveStartDate, endDate, nominal) times
discount(protectionPaymentDate) to the pre-sign default-leg NPV, where the
default date is the period mid-point; on the spec example (single coupon,
notional 1,000,000, recovery 0.4, default probability 0.02, protection
discount 0.995) the default-leg contribution is 1,000,000 * 0.6 * 0.02 *
0.995 = 11,940 and the coupon-leg contribution is 0.98 * 2500 * 0.99. -/
theorem c1_default_leg_accumulation :
    (∀ (mkt : Market) (args : CdsArguments) (leg : List LegCashFlow) (i : Nat)
       (acc0 acc : LoopAcc), legLoop mkt args i acc0 leg = some acc →
       acc.defaultLegNPV = acc0.defaultLegNPV + defaultLegSum mkt args i leg) ∧
    legLoop c1mkt c1args 0 LoopAcc.init c1args.leg = some c1acc ∧
    c1acc.defaultLegNPV = 1000000 * (3 / 5) * (1 / 50) * (199 / 200) ∧
    c1acc.defaultLegNPV = 11940 ∧
    c1acc.couponLegNPV = 49 / 50 * 2500 * (99 / 100) ∧
    defaultLegTerm c1mkt c1args 0 c1coupon =
      expectedLoss c1mkt c1args (couponDefaultDate c1mkt c1args 0 c1coupon)
        (couponEffectiveStartDate c1mkt c1args 0 c1coupon) c1coupon.accrualEndDate
        c1coupon.nominal *
        c1mkt.discount (couponProtectionPaymentDate c1mkt c1args 0 c1coupon) := by
  refine ⟨legLoop_defaultLeg, ?_, ?_, ?_, ?_, rfl⟩ <;> with_unfolding_all rfl

/-- C1 witness: the accumulation theorem evaluated on the spec example. -/
theorem c1_default_leg_accumulation_witness :
    legLoop c1mkt c1args 0 LoopAcc.init c1args.leg = some c1acc ∧
    c1acc.defaultLegNPV = LoopAcc.init.defaultLegNPV + defaultLegSum c1mkt c1args 0 c1args.leg :=
  ⟨by with_unfolding_all rfl,
   c1_default_leg_accumulation.1 c1mkt c1args c1args.leg 0 LoopAcc.init c1acc
     (by with_unfolding_all rfl)⟩

/-- C2: swapping the protection side between Buyer and Seller (all else
equal) negates both the default-leg and the coupon-leg NPV, because the
legs are accumulated once as positive quantities and signed exactly once
afterwards. -/
theorem c2_sign_symmetry (mkt : Market) (args : CdsArguments) (rB rS : CdsResults)
    (hB : MidPointCdsEngineBase.calculate mkt
      { args with side := ProtectionSide.Buyer } = some rB)
    (hS : MidPointCdsEngineBase.calculate mkt
      { args with side := ProtectionSide.Seller } = some rS) :
    rB.defaultLegNPV = -rS.defaultLegNPV ∧ rB.couponLegNPV = -rS.couponLegNPV := by
  rw [MidPointCdsEngineBase.calculate] at hB hS
  rw [legLoop_set_side mkt args ProtectionSide.Buyer] at hB
  rw [legLoop_set_side mkt args ProtectionSide.Seller] at hS
  cases hleg : legLoop mkt args 0 LoopAcc.init args.leg with
  | none =>
    rw [hleg] at hB
    exact absurd hB (by simp)
  | some acc =>
    simp only [hleg] at hB hS
    cases hup : args.upfrontPayment with
    | none =>
      rw [finishCalculate_none { args with side := ProtectionSide.Buyer } acc _ _ _ _ _ _ _ hup]
        at hB
      exact absurd hB (by simp)
    | some p =>
      obtain ⟨hBd, hBc, _⟩ := finishCalculate_fields _ _ _ _ _ _ _ _ _ p rB hup hB
      obtain ⟨hSd, hSc, _⟩ := finishCalculate_fields _ _ _ _ _ _ _ _ _ p rS hup hS
      constructor
      · rw [hBd, hSd]; ring
      · rw [hBc, hSc]

/-- C2 witness: the symmetry evaluated on a concrete argument set. -/
theorem c2_sign_symmetry_witness :
    MidPointCdsEngineBase.calculate mkt0 { args0 with side := ProtectionSide.Buyer } = some res0B ∧
    MidPointCdsEngineBase.calculate mkt0 { args0 with side := ProtectionSide.Seller } = some res0S ∧
    res0B.defaultLegNPV = -res0S.defaultLegNPV ∧ res0B.couponLegNPV = -res0S.couponLegNPV :=
  ⟨by with_unfolding_all rfl, by with_unfolding_all rfl,
   (c2_sign_symmetry mkt0 args0 res0B res0S (by with_unfolding_all rfl)
     (by with_unfolding_all rfl)).1,
   (c2_sign_symmetry mkt0 args0 res0B res0S (by with_unfolding_all rfl)
     (by with_unfolding_all rfl)).2⟩

/-- C4 counterexample: a protection-seller argument set whose accrual rebate
exactly offsets the coupon leg.  The dirty fair-spread denominator
couponLegNPV + accrualRebateNPV is zero, yet fairSpreadDirty is a computed
division result (over exact rationals the value 0; in C++ doubles this is a
division by zero producing Inf/NaN), not the Null sentinel none — so the
claim that a zero denominator always yields the sentinel is false. -/
theorem c4_denominator_guard_counterexample :
    Option.map (fun r : CdsResults => (r.couponLegNPV + r.accrualRebateNPV, r.fairSpreadDirty))
      (MidPointCdsEngineBase.calculate mkt0 c4args) = some (0, some 0) := by
  with_unfolding_all rfl

/-- C4 (amended): the guard is on couponLegNPV, not on the fair-spread
denominator: when couponLegNPV = 0 both fair spreads are the Null sentinel;
when couponLegNPV ≠ 0 the ratios are computed with denominators
couponLegNPV + accrualRebateNPV (dirty) and couponLegNPV +
accrualRebateNPVCurrent (clean), which the guard does not check. -/
theorem c4_fair_spread_guard_amended (mkt : Market) (args : CdsArguments) (r : CdsResults)
    (h : MidPointCdsEngineBase.calculate mkt args = some r) :
    (r.couponLegNPV = 0 → r.fairSpreadDirty = none ∧ r.fairSpreadClean = none) ∧
    (r.couponLegNPV ≠ 0 →
      r.fairSpreadDirty =
        some (-r.defaultLegNPV * args.spread / (r.couponLegNPV + r.accrualRebateNPV)) ∧
      r.fairSpreadClean =
        some (-r.defaultLegNPV * args.spread /
          (r.couponLegNPV + r.accrualRebateNPVCurrent))) := by
  rw [MidPointCdsEngineBase.calculate] at h
  cases hleg : legLoop mkt args 0 LoopAcc.init args.leg with
  | none =>
    rw [hleg] at h
    exact absurd h (by simp)
  | some acc =>
    simp only [hleg] at h
    cases hup : args.upfrontPayment with
    | none =>
      cases hside : args.side with
      | Seller =>
        simp only [hside] at h
        rw [finishCalculate_none args acc _ _ _ _ _ _ _ hup] at h
        exact absurd h (by simp)
      | Buyer =>
        simp only [hside] at h
        rw [finishCalculate_none args acc _ _ _ _ _ _ _ hup] at h
        exact absurd h (by simp)
    | some p =>
      cases hside : args.side with
      | Seller =>
        simp only [hside] at h
        obtain ⟨hd, hc, -, har, harc, -, hdirty, hclean, -⟩ :=
          finishCalculate_fields _ _ _ _ _ _ _ _ _ p r hup h
        constructor
        · intro hc0
          rw [hc] at hc0
          rw [hdirty, hclean, if_pos hc0, if_pos hc0]
          exact ⟨rfl, rfl⟩
        · intro hc0
          rw [hc] at hc0
          rw [hdirty, hclean, if_neg hc0, if_neg hc0, hd, hc, har, harc]
          exact ⟨rfl, rfl⟩
      | Buyer =>
        simp only [hside] at h
        obtain ⟨hd, hc, -, har, harc, -, hdirty, hclean, -⟩ :=
          finishCalculate_fields _ _ _ _ _ _ _ _ _ p r hup h
        constructor
        · intro hc0
          rw [hc] at hc0
          rw [hdirty, hclean, if_pos hc0, if_pos hc0]
          exact ⟨rfl, rfl⟩
        · intro hc0
          rw [hc] at hc0
          rw [hdirty, hclean, if_neg hc0, if_neg hc0, hd, hc, har, harc]
          exact ⟨rfl, rfl⟩

/-- C4 witness: the amended guard behaviour evaluated on the counterexample
arguments, whose couponLegNPV is 100 ≠ 0. -/
theorem c4_fair_spread_guard_amended_witness :
    MidPointCdsEngineBase.calculate mkt0 c4args = some c4res ∧
    c4res.couponLegNPV ≠ 0 ∧
    c4res.fairSpreadDirty =
      some (-c4res.defaultLegNPV * c4args.spread /
        (c4res.couponLegNPV + c4res.accrualRebateNPV)) ∧
    c4res.fairSpreadClean =
      some (-c4res.defaultLegNPV * c4args.spread /
        (c4res.couponLegNPV + c4res.accrualRebateNPVCurrent)) :=
  ⟨by with_unfolding_all rfl, by with_unfolding_all exact (by decide),
   (c4_fair_spread_guard_amended mkt0 c4args c4res (by with_unfolding_all rfl)).2
     (by with_unfolding_all exact (by decide)) |>.1,
   (c4_fair_spread_guard_amended mkt0 c4args c4res (by with_unfolding_all rfl)).2
     (by with_unfolding_all exact (by decide)) |>.2⟩

/-- C6: with spread = 0 the coupon-leg BPS is the Null sentinel; with a
nonzero spread it is couponLegNPV times one basis point divided by the
spread; the analogous guard holds for upfrontBPS with respect to the
upfront reference amount. -/
theorem c6_bps_guards (mkt : Market) (args : CdsArguments) (r : CdsResults)
    (h : MidPointCdsEngineBase.calculate mkt args = some r) :
    (args.spread = 0 → r.couponLegBPS = none) ∧
    (args.spread ≠ 0 → r.couponLegBPS = some (r.couponLegNPV * basisPoint / args.spread)) ∧
    (args.upfront = none → r.upfrontBPS = none) ∧
    (args.upfront = some 0 → r.upfrontBPS = none) ∧
    (∀ u, args.upfront = some u → u ≠ 0 →
      r.upfrontBPS = some (r.upfrontNPV * basisPoint / u)) := by
  rw [MidPointCdsEngineBase.calculate] at h
  cases hleg : legLoop mkt args 0 LoopAcc.init args.leg with
  | none =>
    rw [hleg] at h
    exact absurd h (by simp)
  | some acc =>
    simp only [hleg] at h
    cases hup : args.upfrontPayment with
    | none =>
      cases hside : args.side with
      | Seller =>
        simp only [hside] at h
        rw [finishCalculate_none args acc _ _ _ _ _ _ _ hup] at h
        exact absurd h (by simp)
      | Buyer =>
        simp only [hside] at h
        rw [finishCalculate_none args acc _ _ _ _ _ _ _ hup] at h
        exact absurd h (by simp)
    | some p =>
      have main : ∀ (v d c u ar arc sgn : ℚ),
          finishCalculate args acc v d c u ar arc sgn = some r →
          (args.spread = 0 → r.couponLegBPS = none) ∧
          (args.spread ≠ 0 →
            r.couponLegBPS = some (r.couponLegNPV * basisPoint / args.spread)) ∧
          (args.upfront = none → r.upfrontBPS = none) ∧
          (args.upfront = some 0 → r.upfrontBPS = none) ∧
          (∀ uf, args.upfront = some uf → uf ≠ 0 →
            r.upfrontBPS = some (r.upfrontNPV * basisPoint / uf)) := by
        intro v d c u ar arc sgn hfin
        obtain ⟨-, hc, hu, -, -, -, -, -, -, hbps, hubps, -⟩ :=
          finishCalculate_fields _ _ _ _ _ _ _ _ _ p r hup hfin
        refine ⟨?_, ?_, ?_, ?_, ?_⟩
        · intro hs; rw [hbps, if_pos hs]
        · intro hs; rw [hbps, if_neg hs, hc]
        · intro hupf; rw [hubps, hupf]
        · intro hupf; rw [hubps, hupf]; simp
        · intro uf hupf hne; rw [hubps, hupf, hu]; simp [hne]
      cases hside : args.side with
      | Seller =>
        simp only [hside] at h
        exact main _ _ _ _ _ _ _ h
      | Buyer =>
        simp only [hside] at h
        exact main _ _ _ _ _ _ _ h

/-- C6 witness: the nonzero-spread and nonzero-upfront branches evaluated on
a concrete argument set with spread 2 and upfront 3. -/
theorem c6_bps_guards_witness :
    MidPointCdsEngineBase.calculate mkt0 args0 = some res0B ∧
    args0.spread ≠ 0 ∧
    res0B.couponLegBPS = some (res0B.couponLegNPV * basisPoint / args0.spread) ∧
    res0B.upfrontBPS = some (res0B.upfrontNPV * basisPoint / 3) :=
  ⟨by with_unfolding_all rfl, by with_unfolding_all exact (by decide),
   (c6_bps_guards mkt0 args0 res0B (by with_unfolding_all rfl)).2.1
     (by with_unfolding_all exact (by decide)),
   (c6_bps_guards mkt0 args0 res0B (by with_unfolding_all rfl)).2.2.2.2 3 rfl
     (by with_unfolding_all exact (by decide))⟩

/-- C9: the final additionalResults write dereferences arguments.upfrontPayment
unconditionally, so calculate fails whenever it is null, even though the
upfront-NPV accumulation itself tolerates a missing or already-occurred
upfront payment (an occurred one yields upfrontNPV = 0 and a successful
call). -/
theorem c9_upfront_payment_required (mkt : Market) (args : CdsArguments) :
    (args.upfrontPayment = none → MidPointCdsEngineBase.calculate mkt args = none) ∧
    (∀ p r, args.upfrontPayment = some p →
      CashFlow.hasOccurred p.date mkt.settlementDate mkt.includeSettlementDateFlows = true →
      MidPointCdsEngineBase.calculate mkt args = some r → r.upfrontNPV = 0) := by
  constructor
  · intro hup
    rw [MidPointCdsEngineBase.calculate]
    cases hleg : legLoop mkt args 0 LoopAcc.init args.leg with
    | none => rfl
    | some acc =>
      cases hside : args.side with
      | Seller => exact finishCalculate_none args acc _ _ _ _ _ _ _ hup
      | Buyer => exact finishCalculate_none args acc _ _ _ _ _ _ _ hup
  · intro p r hup hocc h
    rw [MidPointCdsEngineBase.calculate] at h
    cases hleg : legLoop mkt args 0 LoopAcc.init args.leg with
    | none =>
      rw [hleg] at h
      exact absurd h (by simp)
    | some acc =>
      simp only [hleg] at h
      have hraw : upfrontRaw mkt args = (0, 0) := by
        simp [upfrontRaw, hup, hocc]
      cases hside : args.side with
      | Seller =>
        simp only [hside] at h
        obtain ⟨-, -, hu, -⟩ := finishCalculate_fields _ _ _ _ _ _ _ _ _ p r hup h
        rw [hu, hraw]
      | Buyer =>
        simp only [hside] at h
        obtain ⟨-, -, hu, -⟩ := finishCalculate_fields _ _ _ _ _ _ _ _ _ p r hup h
        rw [hu, hraw]
        simp

/-- C9 witness: a null upfront payment makes the whole call fail. -/
theorem c9_upfront_payment_required_witness :
    MidPointCdsEngineBase.calculate mkt0 { args0 with upfrontPayment := none } = none :=
  (c9_upfront_payment_required mkt0 { args0 with upfrontPayment := none }).1 rfl

/-- C10: the scalar result is defaultLegNPV + couponLegNPV + upfrontNPV +
accrualRebateNPV (all after the sign flip), and accrualRebateNPVCurrent
does not enter it: changing the accrualRebateCurrent argument leaves the
scalar value unchanged. -/
theorem c10_value_decomposition (mkt : Market) (args : CdsArguments) :
    (∀ r, MidPointCdsEngineBase.calculate mkt args = some r →
      r.value = r.defaultLegNPV + r.couponLegNPV + r.upfrontNPV + r.accrualRebateNPV) ∧
    (∀ x, Option.map CdsResults.value
        (MidPointCdsEngineBase.calculate mkt { args with accrualRebateCurrent := x }) =
      Option.map CdsResults.value (MidPointCdsEngineBase.calculate mkt args)) := by
  constructor
  · intro r h
    rw [MidPointCdsEngineBase.calculate] at h
    cases hleg : legLoop mkt args 0 LoopAcc.init args.leg with
    | none =>
      rw [hleg] at h
      exact absurd h (by simp)
    | some acc =>
      simp only [hleg] at h
      cases hup : args.upfrontPayment with
      | none =>
        cases hside : args.side with
        | Seller =>
          simp only [hside] at h
          rw [finishCalculate_none args acc _ _ _ _ _ _ _ hup] at h
          exact absurd h (by simp)
        | Buyer =>
          simp only [hside] at h
          rw [finishCalculate_none args acc _ _ _ _ _ _ _ hup] at h
          exact absurd h (by simp)
      | some p =>
        cases hside : args.side with
        | Seller =>
          simp only [hside] at h
          obtain ⟨hd, hc, hu, har, -, hval, -⟩ :=
            finishCalculate_fields _ _ _ _ _ _ _ _ _ p r hup h
          rw [hval, hd, hc, hu, har]
        | Buyer =>
          simp only [hside] at h
          obtain ⟨hd, hc, hu, har, -, hval, -⟩ :=
            finishCalculate_fields _ _ _ _ _ _ _ _ _ p r hup h
          rw [hval, hd, hc, hu, har]
  · intro x
    rw [MidPointCdsEngineBase.calculate, MidPointCdsEngineBase.calculate]
    have hlproj : ({ args with accrualRebateCurrent := x } : CdsArguments).leg = args.leg := rfl
    have hsproj : ({ args with accrualRebateCurrent := x } : CdsArguments).side = args.side := rfl
    rw [legLoop_set_arc mkt args x, hlproj, hsproj]
    cases hleg : legLoop mkt args 0 LoopAcc.init args.leg with
    | none => rfl
    | some acc =>
      cases hside : args.side with
      | Seller =>
        rw [finishCalculate_value_map, finishCalculate_value_map]
        rfl
      | Buyer =>
        rw [finishCalculate_value_map, finishCalculate_value_map]
        rfl

/-- C10 witness: the value decomposition evaluated on a concrete argument
set. -/
theorem c10_value_decomposition_witness :
    MidPointCdsEngineBase.calculate mkt0 args0 = some res0B ∧
    res0B.value = res0B.defaultLegNPV + res0B.couponLegNPV + res0B.upfrontNPV +
      res0B.accrualRebateNPV :=
  ⟨by with_unfolding_all rfl,
   (c10_value_decomposition mkt0 args0).1 res0B (by with_unfolding_all rfl)⟩

/-- C3: update() only marks the curve dirty and notifies observers, touching
nothing else and recomputing nothing; the next value request (yoyRateImpl,
data, rates or nodes all call calculate) performs exactly one
recalculation, copying the current value of every subscribed quote into the
data array and rebuilding the interpolation over the full node set, and any
further read between mutations recomputes zero more times; the returned
rate is interpolated from the freshly rebuilt snapshot, so a quote mutation
is reflected only after a value is requested. -/
theorem c3_lazy_recalculation (s : ObsCurve) (quoteVal : Nat → ℚ) (t : ℚ) :
    ObsCurve.update s = { s with calculated := false, notifications := s.notifications + 1 } ∧
    (ObsCurve.lazyCalculate quoteVal (ObsCurve.update s)).2 = true ∧
    (ObsCurve.lazyCalculate quoteVal (ObsCurve.update s)).1.data = newData quoteVal s ∧
    (ObsCurve.lazyCalculate quoteVal (ObsCurve.update s)).1.interpTimes = s.times ∧
    (ObsCurve.lazyCalculate quoteVal (ObsCurve.update s)).1.interpData = newData quoteVal s ∧
    (ObsCurve.lazyCalculate quoteVal (ObsCurve.update s)).1.dates = s.dates ∧
    (ObsCurve.lazyCalculate quoteVal (ObsCurve.update s)).1.times = s.times ∧
    ObsCurve.lazyCalculate quoteVal (ObsCurve.lazyCalculate quoteVal s).1 =
      ((ObsCurve.lazyCalculate quoteVal s).1, false) ∧
    ObsCurve.yoyRateImpl quoteVal (ObsCurve.update s) t =
      ((ObsCurve.lazyCalculate quoteVal (ObsCurve.update s)).1,
        interpValue s.times (newData quoteVal s) t) ∧
    ObsCurve.dataRead quoteVal s =
      ((ObsCurve.lazyCalculate quoteVal s).1, (ObsCurve.lazyCalculate quoteVal s).1.data) ∧
    ObsCurve.ratesRead quoteVal s =
      ((ObsCurve.lazyCalculate quoteVal s).1, (ObsCurve.lazyCalculate quoteVal s).1.data) ∧
    ObsCurve.nodesRead quoteVal s =
      ((ObsCurve.lazyCalculate quoteVal s).1,
        (ObsCurve.lazyCalculate quoteVal s).1.dates.zip
          (ObsCurve.lazyCalculate quoteVal s).1.data) := by
  refine ⟨rfl, rfl, rfl, rfl, rfl, rfl, rfl, ?_, rfl, rfl, rfl, rfl⟩
  cases hc : s.calculated with
  | true => simp [ObsCurve.lazyCalculate, hc]
  | false => simp [ObsCurve.lazyCalculate, hc]

theorem buildTimes_ne_oob (tfr : Int → ℚ) :
    ∀ (ds : List Int) (dPrev : Int) (tPrev : ℚ),
    buildTimes tfr dPrev tPrev ds ≠ Except.error CtorError.oobQuoteAccess := by
  intro ds
  induction ds with
  | nil => intro dPrev tPrev; simp [buildTimes]
  | cons d ds ih =>
    intro dPrev tPrev
    simp only [buildTimes]
    split
    · simp
    · split
      · simp
      · split
        · simp
        · cases hb : buildTimes tfr d (tfr d) ds with
          | ok ts => simp
          | error e =>
            intro h
            simp only [Except.error.injEq] at h
            exact ih d (tfr d) (h ▸ hb)

theorem buildTimes_chains (tfr : Int → ℚ) :
    ∀ (ds : List Int) (dPrev : Int) (ts : List ℚ),
    buildTimes tfr dPrev (tfr dPrev) ds = .ok ts →
    List.Chain' (· < ·) (dPrev :: ds) ∧
    List.Chain' (fun a b => tfr a ≠ tfr b) (dPrev :: ds) := by
  intro ds
  induction ds with
  | nil =>
    intro dPrev ts h
    exact ⟨List.chain'_singleton _, List.chain'_singleton _⟩
  | cons d ds ih =>
    intro dPrev ts h
    simp only [buildTimes] at h
    split at h
    · exact absurd h (by simp)
    next hle =>
      split at h
      next h01 => exact absurd h01 (by norm_num)
      next =>
        split at h
        next => exact absurd h (by simp)
        next hne =>
          cases hb : buildTimes tfr d (tfr d) ds with
          | error e => rw [hb] at h; exact absurd h (by simp)
          | ok ts2 =>
            rw [hb] at h
            obtain ⟨hc1, hc2⟩ := ih d ts2 hb
            refine ⟨List.chain'_cons.mpr ⟨by omega, hc1⟩,
              List.chain'_cons.mpr ⟨fun heq => hne heq.symm, hc2⟩⟩

theorem snappedDates_length (iii : Bool) (pStart : Int → Int) (dates : List Int) :
    (snappedDates iii pStart dates).length = dates.length := by
  cases iii <;> simp [snappedDates]

theorem mk_ok_spec (iii : Bool) (pStart : Int → Int) (tfr : Int → ℚ)
    (dates : List Int) (quotes : List ℚ) (s : ObsCurve)
    (h : YoYInflationCurveObserver.mk iii pStart tfr dates quotes = .ok s) :
    1 < dates.length ∧ quotes.length = dates.length ∧
    s.dates = snappedDates iii pStart dates ∧
    List.Chain' (· < ·) (snappedDates iii pStart dates) ∧
    List.Chain' (fun a b => tfr a ≠ tfr b) (snappedDates iii pStart dates) ∧
    s.calculated = false := by
  cases hq : quotes with
  | nil =>
    rw [hq] at h
    exact absurd h (by simp [YoYInflationCurveObserver.mk])
  | cons q0 qs =>
    rw [hq] at h
    simp only [YoYInflationCurveObserver.mk] at h
    split at h
    next => exact absurd h (by simp)
    next hgt =>
      split at h
      next => exact absurd h (by simp)
      next hcnt =>
        rw [Decidable.not_not] at hcnt
        split at h
        next hd2 => exact absurd h (by simp)
        next d0 drest hd2 =>
          split at h
          next e hb => exact absurd h (by simp)
          next trest hb =>
            simp only [Except.ok.injEq] at h
            obtain ⟨hc1, hc2⟩ := buildTimes_chains tfr drest d0 trest hb
            have hlen := snappedDates_length iii pStart dates
            refine ⟨by omega, hcnt.trans hlen, ?_, ?_, ?_, ?_⟩
            · rw [← h, hd2]
            · rw [hd2]; exact hc1
            · rw [hd2]; exact hc2
            · rw [← h]

theorem mk_ne_oob (iii : Bool) (pStart : Int → Int) (tfr : Int → ℚ)
    (dates : List Int) (quotes : List ℚ) (hq : quotes ≠ []) :
    YoYInflationCurveObserver.mk iii pStart tfr dates quotes ≠
      Except.error CtorError.oobQuoteAccess := by
  cases quotes with
  | nil => exact absurd rfl hq
  | cons q0 qs =>
    simp only [YoYInflationCurveObserver.mk]
    split
    · simp
    · split
      · simp
      · intro h
        split at h
        next hd2 => exact absurd h (by simp)
        next d0 drest hd2 =>
          split at h
          next e hb =>
            simp only [Except.error.injEq] at h
            exact buildTimes_ne_oob tfr drest d0 (tfr d0) (h ▸ hb)
          next trest hb => exact absurd h (by simp)

/-- C5 counterexample: on the empty node set (an invalid input: fewer than
two dates and zero quotes) the constructor does not fail with a QL_REQUIRE
validation error — the base-class initializer list reads rates[0] before
any check runs, which on an empty quote vector is an out-of-bounds access
(undefined behaviour in C++), modelled as the distinguished non-validation
failure oobQuoteAccess. -/
theorem c5_empty_nodes_counterexample :
    YoYInflationCurveObserver.mk true (fun d => d) (fun d => (d : ℚ)) [] [] =
      Except.error CtorError.oobQuoteAccess := rfl

/-- C5 (amended): provided at least one quote is supplied (so the rates[0]
read in the base-class initializer succeeds), the constructor validates the
node set with QL_REQUIRE: success implies more than one date, quote count
equal to date count, strictly increasing dates and pairwise-distinct
adjacent times of the (snapped) dates; and every date sequence that is not
strictly increasing is rejected with a validation (non-out-of-bounds)
error, the snapping map being monotone. -/
theorem c5_constructor_validation_amended (iii : Bool) (pStart : Int → Int) (tfr : Int → ℚ)
    (dates : List Int) (quotes : List ℚ) (hq : quotes ≠ []) (hmono : Monotone pStart) :
    (∀ s, YoYInflationCurveObserver.mk iii pStart tfr dates quotes = .ok s →
      1 < dates.length ∧ quotes.length = dates.length ∧
      List.Chain' (· < ·) dates ∧
      List.Chain' (fun a b => tfr a ≠ tfr b) (snappedDates iii pStart dates)) ∧
    (¬ List.Chain' (· < ·) dates →
      ∃ e, YoYInflationCurveObserver.mk iii pStart tfr dates quotes = Except.error e ∧
        e ≠ CtorError.oobQuoteAccess) := by
  have key : ∀ s, YoYInflationCurveObserver.mk iii pStart tfr dates quotes = .ok s →
      List.Chain' (· < ·) dates := by
    intro s hs
    obtain ⟨-, -, -, hchain, -⟩ := mk_ok_spec iii pStart tfr dates quotes s hs
    cases iii with
    | true => simpa [snappedDates] using hchain
    | false =>
      rw [snappedDates] at hchain
      simp only [Bool.false_eq_true, if_false] at hchain
      rw [List.chain'_map] at hchain
      exact hchain.imp fun a b hab =>
        lt_of_not_le fun hba => absurd hab (not_lt.mpr (hmono hba))
  constructor
  · intro s hs
    obtain ⟨h1, h2, -, -, h5, -⟩ := mk_ok_spec iii pStart tfr dates quotes s hs
    exact ⟨h1, h2, key s hs, h5⟩
  · intro hnc
    cases hmk : YoYInflationCurveObserver.mk iii pStart tfr dates quotes with
    | ok s => exact absurd (key s hmk) hnc
    | error e =>
      exact ⟨e, rfl, fun he => mk_ne_oob iii pStart tfr dates quotes hq (he ▸ hmk)⟩

/-- C5 witness: the amended characterisation applied to a valid concrete
node set. -/
theorem c5_constructor_validation_amended_witness :
    YoYInflationCurveObserver.mk false (fun d => d) (fun d => (d : ℚ)) [0, 1] [5, 7] =
      Except.ok c5curve ∧
    1 < ([0, 1] : List Int).length ∧
    ([5, 7] : List ℚ).length = ([0, 1] : List Int).length ∧
    List.Chain' (· < ·) ([0, 1] : List Int) ∧
    List.Chain' (fun a b : Int => (a : ℚ) ≠ (b : ℚ)) (snappedDates false (fun d => d) [0, 1]) :=
  ⟨rfl,
   (c5_constructor_validation_amended false (fun d => d) (fun d => (d : ℚ)) [0, 1] [5, 7]
      (by simp) (fun _ _ hab => hab)).1 c5curve rfl⟩

/-- C7: for a non-interpolated index every input date is snapped to the
start of its inflation period exactly once, in the constructor (the stored
dates are the snapped dates); performCalculations only rewrites the data
array and the interpolation snapshot and leaves the dates and times arrays
(and everything else) unchanged, so the snapping is never re-applied. -/
theorem c7_snap_once_frame (iii : Bool) (pStart : Int → Int) (tfr : Int → ℚ)
    (dates : List Int) (quotes : List ℚ) :
    (∀ s, YoYInflationCurveObserver.mk iii pStart tfr dates quotes = .ok s →
      s.dates = snappedDates iii pStart dates) ∧
    (∀ (quoteVal : Nat → ℚ) (s : ObsCurve),
      (ObsCurve.performCalculations quoteVal s).dates = s.dates ∧
      (ObsCurve.performCalculations quoteVal s).times = s.times ∧
      (ObsCurve.performCalculations quoteVal s).data = newData quoteVal s ∧
      (ObsCurve.performCalculations quoteVal s).interpTimes = s.times ∧
      (ObsCurve.performCalculations quoteVal s).interpData = newData quoteVal s ∧
      (ObsCurve.performCalculations quoteVal s).calculated = s.calculated ∧
      (ObsCurve.performCalculations quoteVal s).notifications = s.notifications) :=
  ⟨fun s hs => (mk_ok_spec iii pStart tfr dates quotes s hs).2.2.1,
   fun _ _ => ⟨rfl, rfl, rfl, rfl, rfl, rfl, rfl⟩⟩

/-- C7 witness: the snapping conclusion on a concrete non-interpolated
construction ([0, 10] snapped by d ↦ d - 1 to [-1, 9]). -/
theorem c7_snap_once_frame_witness :
    YoYInflationCurveObserver.mk false c7snap c7tfr [0, 10] [4, 5] = Except.ok c7curve ∧
    c7curve.dates = snappedDates false c7snap [0, 10] :=
  ⟨rfl, (c7_snap_once_frame false c7snap c7tfr [0, 10] [4, 5]).1 c7curve rfl⟩

theorem group_filter_single (q : String) :
    ∀ (gs : List (Nat × List String)) (g : Nat × List String), g ∈ gs → q ∈ g.2 →
    List.Pairwise (fun a b => ∀ y, y ∈ a.2 → y ∉ b.2) gs →
    gs.filter (fun x => decide (q ∈ x.2)) = [g] := by
  intro gs
  induction gs with
  | nil => intro g hg; cases hg
  | cons x rest ih =>
    intro g hg hq hpw
    rcases List.mem_cons.mp hg with rfl | hgrest
    · rw [List.filter_cons, if_pos (by simpa using hq)]
      have hrest : ∀ b ∈ rest, q ∉ b.2 := fun b hb =>
        (List.pairwise_cons.mp hpw).1 b hb q hq
      rw [List.filter_eq_nil_iff.mpr fun b hb => by simpa using hrest b hb]
    · have hqx : q ∉ x.2 := fun hqx =>
        (List.pairwise_cons.mp hpw).1 g hgrest q hqx hq
      rw [List.filter_cons, if_neg (by simpa using hqx)]
      exact ih g hgrest hq (List.pairwise_cons.mp hpw).2

/-- C8: group(qualifier, groups) returns the index of the unique group whose
qualifier set contains the qualifier, under the partition invariant that
the groups are pairwise disjoint; a qualifier contained in no group, or in
more than one, yields the fatal configuration failure (none) rather than a
default index. -/
theorem c8_group_lookup (q : String) (gs : List (Nat × List String)) :
    (∀ g, g ∈ gs → q ∈ g.2 →
      List.Pairwise (fun a b => ∀ y, y ∈ a.2 → y ∉ b.2) gs →
      SimmConfiguration.group q gs = some g.1) ∧
    ((∀ g, g ∈ gs → q ∉ g.2) → SimmConfiguration.group q gs = none) ∧
    (∀ g1 g2 rest, gs.filter (fun g => decide (q ∈ g.2)) = g1 :: g2 :: rest →
      SimmConfiguration.group q gs = none) := by
  refine ⟨?_, ?_, ?_⟩
  · intro g hg hq hpw
    rw [SimmConfiguration.group, group_filter_single q gs g hg hq hpw]
  · intro hnone
    rw [SimmConfiguration.group,
      List.filter_eq_nil_iff.mpr fun g hg => by simpa using hnone g hg]
  · intro g1 g2 rest hfil
    rw [SimmConfiguration.group, hfil]

/-- C8 witness: the lookup on a concrete disjoint currency-group partition:
USD is found in its unique group 0, and JPY (contained in no group) fails. -/
theorem c8_group_lookup_witness :
    (0, ["USD", "EUR"]) ∈ c8groups ∧ c8usd ∈ [c8usd, "EUR"] ∧
    SimmConfiguration.group c8usd c8groups = some 0 ∧
    SimmConfiguration.group c8jpy c8groups = none :=
  ⟨by decide, by decide,
   (c8_group_lookup c8usd c8groups).1 (0, ["USD", "EUR"]) (by decide) (by decide) (by decide),
   (c8_group_lookup c8jpy c8groups).2.1 (by decide)⟩

end Engine
